import Mathlib

/-!
Verification of the Supabase Relay forwarding proxy (`relay.py`).

Shallow embedding of the request-transformation-and-forwarding logic of
`relay.py` (the `proxy` handler), together with the `/openapi.json` handler,
and proofs of the specification's claims about them.

Modelling conventions:
* A Python `str` is a sequence of Unicode code points, modelled as `PyStr := List Nat`.
* A Python `bytes` value is modelled as `List Nat` (each entry a byte value).
* `bytes.decode('utf-8')` (strict errors, as in `relay.py` line 57) is modelled by
  `utf8Decode`, a strict UTF-8 decoder that rejects invalid sequences exactly as
  CPython's strict codec does (invalid lead bytes, truncated sequences, overlong
  encodings, surrogates, values above U+10FFFF).
* `json.loads` / `json.dumps` from the Python standard library are modelled by
  `json_loads` / `json_dumps` over an inductive `PyJson` value type, mirroring the
  default behaviour of the `json` module (last duplicate key wins, `ensure_ascii`
  output with separators `", "` and `": "`, acceptance of `NaN`/`Infinity`).
  Float literals are carried as their lexemes; no claim depends on float arithmetic.
* The outbound `httpx` POST is modelled by an oracle
  `upstream : OutboundRequest → Except PyStr UpstreamResp`: `Except.error m` is a
  raised transport exception (timeout, connection failure, ...) with message `m`.
-/

/-- A Python `str`: a sequence of Unicode code points. -/
abbrev PyStr : Type := List Nat

/-- Embed a Lean string literal as a `PyStr` (list of code points). -/
def strLit (s : String) : PyStr := s.data.map Char.toNat

/-- UTF-8 encoding of a single code point (the encoding CPython's
`str.encode('utf-8')` produces for valid scalar values). -/
def utf8EncodeChar (c : Nat) : List Nat :=
  if c < 0x80 then [c]
  else if c < 0x800 then [0xC0 + c / 64, 0x80 + c % 64]
  else if c < 0x10000 then
    [0xE0 + c / 4096, 0x80 + (c / 64) % 64, 0x80 + c % 64]
  else
    [0xF0 + c / 262144, 0x80 + (c / 4096) % 64, 0x80 + (c / 64) % 64, 0x80 + c % 64]

/-- UTF-8 encoding of a whole string. -/
def utf8Encode (s : PyStr) : List Nat :=
  s.foldr (fun c acc => utf8EncodeChar c ++ acc) []

/-- Is `b` a UTF-8 continuation byte? -/
def isCont (b : Nat) : Bool := decide (0x80 ≤ b ∧ b ≤ 0xBF)

/-- Fuelled strict UTF-8 decoding (each step consumes at least one byte, so
fuel `bs.length` always suffices; see `utf8Decode`). -/
def utf8DecodeAux : Nat → List Nat → Option PyStr
  | _, [] => some []
  | 0, _ :: _ => none
  | f + 1, b :: rest =>
    if b ≤ 0x7F then (utf8DecodeAux f rest).map (fun s => b :: s)
    else if b < 0xC2 then none
    else if b ≤ 0xDF then
      match rest with
      | c1 :: rest1 =>
        if isCont c1 then
          (utf8DecodeAux f rest1).map (fun s => ((b - 0xC0) * 64 + (c1 - 0x80)) :: s)
        else none
      | [] => none
    else if b ≤ 0xEF then
      match rest with
      | c1 :: c2 :: rest2 =>
        if (if b = 0xE0 then 0xA0 else 0x80) ≤ c1 ∧
            c1 ≤ (if b = 0xED then 0x9F else 0xBF) ∧ isCont c2 then
          (utf8DecodeAux f rest2).map
            (fun s => ((b - 0xE0) * 4096 + (c1 - 0x80) * 64 + (c2 - 0x80)) :: s)
        else none
      | _ => none
    else if b ≤ 0xF4 then
      match rest with
      | c1 :: c2 :: c3 :: rest3 =>
        if (if b = 0xF0 then 0x90 else 0x80) ≤ c1 ∧
            c1 ≤ (if b = 0xF4 then 0x8F else 0xBF) ∧ isCont c2 ∧ isCont c3 then
          (utf8DecodeAux f rest3).map
            (fun s => ((b - 0xF0) * 262144 + (c1 - 0x80) * 4096 +
              (c2 - 0x80) * 64 + (c3 - 0x80)) :: s)
        else none
      | _ => none
    else none

/-- Strict UTF-8 decoding, as performed by `body_bytes.decode('utf-8')` in
`relay.py` line 57: `none` models a raised `UnicodeDecodeError`.  Rejects
invalid lead bytes, truncated sequences, overlong encodings, surrogates and
values above U+10FFFF, exactly like CPython's strict `utf-8` codec. -/
def utf8Decode (bs : List Nat) : Option PyStr := utf8DecodeAux bs.length bs

/-- A Python value produced by `json.loads` (and consumed by `json.dumps`).
Dicts are association lists in insertion order; float literals are carried as
their lexemes (no claim depends on float arithmetic or float formatting). -/
inductive PyJson where
  | obj : List (PyStr × PyJson) → PyJson
  | arr : List PyJson → PyJson
  | str : PyStr → PyJson
  | int : Int → PyJson
  | float : PyStr → PyJson
  | bool : Bool → PyJson
  | null : PyJson

/-- Python dict lookup `d[k]` / `d.get(k)` on the association list. -/
def dictGet : List (PyStr × PyJson) → PyStr → Option PyJson
  | [], _ => none
  | (k, v) :: rest, key => if k = key then some v else dictGet rest key

/-- Python dict update `d[k] = v`: replaces in place (keeping the key's
original position) or appends; this is how the json parser builds dicts, so a
duplicate key keeps its first position with its last value. -/
def dictSet : List (PyStr × PyJson) → PyStr → PyJson → List (PyStr × PyJson)
  | [], key, v => [(key, v)]
  | (k, w) :: rest, key, v =>
    if k = key then (k, v) :: rest else (k, w) :: dictSet rest key v

/-- JSON whitespace (as accepted by Python's `json` module). -/
def isWs (c : Nat) : Bool := decide (c = 0x20 ∨ c = 0x09 ∨ c = 0x0A ∨ c = 0x0D)

def skipWs : List Nat → List Nat
  | [] => []
  | c :: rest => if isWs c then skipWs rest else c :: rest

def isDigit (c : Nat) : Bool := decide (0x30 ≤ c ∧ c ≤ 0x39)

def hexVal (c : Nat) : Option Nat :=
  if 0x30 ≤ c ∧ c ≤ 0x39 then some (c - 0x30)
  else if 0x41 ≤ c ∧ c ≤ 0x46 then some (c - 0x41 + 10)
  else if 0x61 ≤ c ∧ c ≤ 0x66 then some (c - 0x61 + 10)
  else none

/-- The single-character string escapes of JSON. -/
def escChar (e : Nat) : Option Nat :=
  if e = 0x22 then some 0x22
  else if e = 0x5C then some 0x5C
  else if e = 0x2F then some 0x2F
  else if e = 0x62 then some 0x08
  else if e = 0x66 then some 0x0C
  else if e = 0x6E then some 0x0A
  else if e = 0x72 then some 0x0D
  else if e = 0x74 then some 0x09
  else none

/-- Parse a JSON string body (the opening quote already consumed), as Python's
`json` does in strict mode: raw control characters are rejected, `\uXXXX`
escapes are decoded, a high/low surrogate escape pair is combined into one code
point and a lone surrogate escape is kept as-is. -/
def parseString : List Nat → Option (PyStr × List Nat)
  | [] => none
  | c :: rest =>
    if c = 0x22 then some ([], rest)
    else if c = 0x5C then
      match rest with
      | [] => none
      | e :: rest1 =>
        if e = 0x75 then
          match rest1 with
          | h1 :: h2 :: h3 :: h4 :: rest2 =>
            match hexVal h1, hexVal h2, hexVal h3, hexVal h4 with
            | some d1, some d2, some d3, some d4 =>
              let u1 := d1 * 4096 + d2 * 256 + d3 * 16 + d4
              if 0xD800 ≤ u1 ∧ u1 ≤ 0xDBFF then
                match rest2 with
                | a :: b :: g1 :: g2 :: g3 :: g4 :: rest3 =>
                  if a = 0x5C ∧ b = 0x75 then
                    match hexVal g1, hexVal g2, hexVal g3, hexVal g4 with
                    | some e1, some e2, some e3, some e4 =>
                      let u2 := e1 * 4096 + e2 * 256 + e3 * 16 + e4
                      if 0xDC00 ≤ u2 ∧ u2 ≤ 0xDFFF then
                        (parseString rest3).map
                          (fun p => ((0x10000 + (u1 - 0xD800) * 1024 + (u2 - 0xDC00)) :: p.1, p.2))
                      else
                        (parseString (a :: b :: g1 :: g2 :: g3 :: g4 :: rest3)).map
                          (fun p => (u1 :: p.1, p.2))
                    | _, _, _, _ =>
                      (parseString (a :: b :: g1 :: g2 :: g3 :: g4 :: rest3)).map
                        (fun p => (u1 :: p.1, p.2))
                  else
                    (parseString (a :: b :: g1 :: g2 :: g3 :: g4 :: rest3)).map
                      (fun p => (u1 :: p.1, p.2))
                | other => (parseString other).map (fun p => (u1 :: p.1, p.2))
              else (parseString rest2).map (fun p => (u1 :: p.1, p.2))
            | _, _, _, _ => none
          | _ => none
        else
          match escChar e with
          | some ec => (parseString rest1).map (fun p => (ec :: p.1, p.2))
          | none => none
    else if c < 0x20 then none
    else (parseString rest).map (fun p => (c :: p.1, p.2))

def takeDigits : List Nat → (List Nat × List Nat)
  | [] => ([], [])
  | c :: rest =>
    if isDigit c then
      let p := takeDigits rest
      (c :: p.1, p.2)
    else ([], c :: rest)

def digitsToNat (acc : Nat) : List Nat → Nat
  | [] => acc
  | d :: rest => digitsToNat (acc * 10 + (d - 0x30)) rest

/-- Parse a JSON number with the grammar of Python's `json` module
(`-?(0|[1-9][0-9]*)(\.[0-9]+)?([eE][-+]?[0-9]+)?`); an integer lexeme gives a
Python `int`, a lexeme with a fraction or exponent gives a `float`. -/
def parseNumber (s : List Nat) : Option (PyJson × List Nat) :=
  let signPair : List Nat × List Nat :=
    match s with
    | c :: r => if c = 0x2D then ([0x2D], r) else ([], s)
    | [] => ([], s)
  let sign := signPair.1
  let intPair := takeDigits signPair.2
  let ids := intPair.1
  if ids = [] then none
  else if 1 < ids.length ∧ ids.headD 0 = 0x30 then none
  else
    let fracRes : Option (List Nat × List Nat) :=
      match intPair.2 with
      | c :: r =>
        if c = 0x2E then
          let p := takeDigits r
          if p.1 = [] then none else some (0x2E :: p.1, p.2)
        else some ([], intPair.2)
      | [] => some ([], intPair.2)
    match fracRes with
    | none => none
    | some (fracLex, s3) =>
      let expRes : Option (List Nat × List Nat) :=
        match s3 with
        | c :: r =>
          if c = 0x65 ∨ c = 0x45 then
            let sgnPair : List Nat × List Nat :=
              match r with
              | d :: r2 => if d = 0x2B ∨ d = 0x2D then ([d], r2) else ([], r)
              | [] => ([], r)
            let p := takeDigits sgnPair.2
            if p.1 = [] then none else some (c :: (sgnPair.1 ++ p.1), p.2)
          else some ([], s3)
        | [] => some ([], s3)
      match expRes with
      | none => none
      | some (expLex, s4) =>
        if fracLex = [] ∧ expLex = [] then
          let n : Nat := digitsToNat 0 ids
          some (PyJson.int (if sign = [] then (n : Int) else -(n : Int)), s4)
        else
          some (PyJson.float (sign ++ ids ++ fracLex ++ expLex), s4)

mutual

/-- Parse one JSON value (fuelled recursive-descent; the fuel passed by
`json_loads` always suffices).  Mirrors what Python's `json.loads` accepts,
including the non-standard `NaN`, `Infinity` and `-Infinity` constants. -/
def parseValue : Nat → List Nat → Option (PyJson × List Nat)
  | 0, _ => none
  | f + 1, s =>
    match s with
    | [] => none
    | c :: rest =>
      if c = 0x7B then parseObjBody f (skipWs rest)
      else if c = 0x5B then parseArrBody f (skipWs rest)
      else if c = 0x22 then (parseString rest).map (fun p => (PyJson.str p.1, p.2))
      else if c = 0x74 then
        match rest with
        | 0x72 :: 0x75 :: 0x65 :: r => some (PyJson.bool true, r)
        | _ => none
      else if c = 0x66 then
        match rest with
        | 0x61 :: 0x6C :: 0x73 :: 0x65 :: r => some (PyJson.bool false, r)
        | _ => none
      else if c = 0x6E then
        match rest with
        | 0x75 :: 0x6C :: 0x6C :: r => some (PyJson.null, r)
        | _ => none
      else if c = 0x4E then
        match rest with
        | 0x61 :: 0x4E :: r => some (PyJson.float (strLit "NaN"), r)
        | _ => none
      else if c = 0x49 then
        match rest with
        | 0x6E :: 0x66 :: 0x69 :: 0x6E :: 0x69 :: 0x74 :: 0x79 :: r =>
          some (PyJson.float (strLit "Infinity"), r)
        | _ => none
      else if c = 0x2D then
        match rest with
        | 0x49 :: rest2 =>
          match rest2 with
          | 0x6E :: 0x66 :: 0x69 :: 0x6E :: 0x69 :: 0x74 :: 0x79 :: r =>
            some (PyJson.float (strLit "-Infinity"), r)
          | _ => none
        | _ => parseNumber (c :: rest)
      else parseNumber (c :: rest)

/-- Parse an object body, positioned right after the opening brace (whitespace
skipped). -/
def parseObjBody : Nat → List Nat → Option (PyJson × List Nat)
  | 0, _ => none
  | f + 1, s =>
    match s with
    | c :: rest =>
      if c = 0x7D then some (PyJson.obj [], rest)
      else parseMembers f (c :: rest) []
    | [] => none

/-- Parse the members of an object, positioned at a key string. -/
def parseMembers : Nat → List Nat → List (PyStr × PyJson) → Option (PyJson × List Nat)
  | 0, _, _ => none
  | f + 1, s, acc =>
    match s with
    | c :: rest =>
      if c = 0x22 then
        match parseString rest with
        | some (key, r1) =>
          match skipWs r1 with
          | 0x3A :: r2 =>
            match parseValue f (skipWs r2) with
            | some (v, r3) =>
              match skipWs r3 with
              | 0x2C :: r4 => parseMembers f (skipWs r4) (dictSet acc key v)
              | 0x7D :: r4 => some (PyJson.obj (dictSet acc key v), r4)
              | _ => none
            | none => none
          | _ => none
        | none => none
      else none
    | [] => none

/-- Parse an array body, positioned right after the opening bracket
(whitespace skipped). -/
def parseArrBody : Nat → List Nat → Option (PyJson × List Nat)
  | 0, _ => none
  | f + 1, s =>
    match s with
    | c :: rest =>
      if c = 0x5D then some (PyJson.arr [], rest)
      else parseElems f (c :: rest) []
    | [] => none

/-- Parse the elements of an array, positioned at a value. -/
def parseElems : Nat → List Nat → List PyJson → Option (PyJson × List Nat)
  | 0, _, _ => none
  | f + 1, s, acc =>
    match parseValue f s with
    | some (v, r1) =>
      match skipWs r1 with
      | 0x2C :: r2 => parseElems f (skipWs r2) (acc ++ [v])
      | 0x5D :: r2 => some (PyJson.arr (acc ++ [v]), r2)
      | _ => none
    | none => none

end

/-- Model of `json.loads`: parse a complete document, allowing only whitespace around
the single top-level value; `none` models a raised `json.JSONDecodeError`. -/
def json_loads (s : PyStr) : Option PyJson :=
  let s1 := skipWs s
  match parseValue (3 * s1.length + 4) s1 with
  | some (v, rest) => if skipWs rest = [] then some v else none
  | none => none

def hexDigitChar (n : Nat) : Nat := if n < 10 then 0x30 + n else 0x61 + (n - 10)

def hex4 (n : Nat) : List Nat :=
  [hexDigitChar (n / 4096 % 16), hexDigitChar (n / 256 % 16),
   hexDigitChar (n / 16 % 16), hexDigitChar (n % 16)]

/-- Escape one character as Python's `json.dumps` does by default
(`ensure_ascii=True`): everything outside `0x20..0x7E` becomes a `\uXXXX`
escape (a surrogate pair for astral code points). -/
def escapeCharAscii (c : Nat) : List Nat :=
  if c = 0x22 then [0x5C, 0x22]
  else if c = 0x5C then [0x5C, 0x5C]
  else if c = 0x08 then [0x5C, 0x62]
  else if c = 0x0C then [0x5C, 0x66]
  else if c = 0x0A then [0x5C, 0x6E]
  else if c = 0x0D then [0x5C, 0x72]
  else if c = 0x09 then [0x5C, 0x74]
  else if 0x20 ≤ c ∧ c ≤ 0x7E then [c]
  else if c < 0x10000 then 0x5C :: 0x75 :: hex4 c
  else
    (0x5C :: 0x75 :: hex4 (0xD800 + (c - 0x10000) / 1024)) ++
      (0x5C :: 0x75 :: hex4 (0xDC00 + (c - 0x10000) % 1024))

def dumpStr (s : PyStr) : PyStr :=
  0x22 :: (s.foldr (fun c acc => escapeCharAscii c ++ acc) []) ++ [0x22]

def natToDecAux : Nat → Nat → List Nat
  | 0, _ => []
  | f + 1, n => if n < 10 then [0x30 + n] else natToDecAux f (n / 10) ++ [0x30 + n % 10]

def natToDec (n : Nat) : List Nat := natToDecAux (n + 1) n

def intToDec : Int → List Nat
  | Int.ofNat n => natToDec n
  | Int.negSucc m => 0x2D :: natToDec (m + 1)

mutual

/-- Model of `json.dumps` with its defaults, as used in `relay.py` line 79:
`ensure_ascii=True`, item separator `", "`, key separator `": "`, dict entries
in insertion order.  A float is rendered as its stored lexeme (modelling note:
CPython renders `repr(float)`; no claim exercises float formatting). -/
def json_dumps : PyJson → PyStr
  | PyJson.obj kvs => 0x7B :: dumpsObjItems true kvs ++ [0x7D]
  | PyJson.arr xs => 0x5B :: dumpsArrItems true xs ++ [0x5D]
  | PyJson.str s => dumpStr s
  | PyJson.int i => intToDec i
  | PyJson.float lex => lex
  | PyJson.bool true => strLit "true"
  | PyJson.bool false => strLit "false"
  | PyJson.null => strLit "null"

def dumpsObjItems : Bool → List (PyStr × PyJson) → PyStr
  | _, [] => []
  | first, (k, v) :: rest =>
    (if first then [] else strLit ", ") ++ dumpStr k ++ strLit ": " ++
      json_dumps v ++ dumpsObjItems false rest

def dumpsArrItems : Bool → List PyJson → PyStr
  | _, [] => []
  | first, v :: rest =>
    (if first then [] else strLit ", ") ++ json_dumps v ++ dumpsArrItems false rest

end

def spaces (n : Nat) : PyStr := List.replicate n 0x20

mutual

/-- Model of `json.dumps(v, indent=2)` (as used by the schema endpoints, `relay.py`
lines 192 and 202): item separator is a comma followed by a newline and
indentation, key separator `": "`, empty containers stay on one line. -/
def dumpsInd : Nat → PyJson → PyStr
  | _, PyJson.obj [] => [0x7B, 0x7D]
  | lvl, PyJson.obj kvs =>
    0x7B :: 0x0A :: dumpsIndObj (lvl + 2) kvs ++ (0x0A :: spaces lvl ++ [0x7D])
  | _, PyJson.arr [] => [0x5B, 0x5D]
  | lvl, PyJson.arr xs =>
    0x5B :: 0x0A :: dumpsIndArr (lvl + 2) xs ++ (0x0A :: spaces lvl ++ [0x5D])
  | _, v => json_dumps v

def dumpsIndObj : Nat → List (PyStr × PyJson) → PyStr
  | _, [] => []
  | lvl, (k, v) :: rest =>
    spaces lvl ++ dumpStr k ++ strLit ": " ++ dumpsInd lvl v ++
      (match rest with
       | [] => []
       | _ :: _ => [0x2C, 0x0A] ++ dumpsIndObj lvl rest)

def dumpsIndArr : Nat → List PyJson → PyStr
  | _, [] => []
  | lvl, v :: rest =>
    spaces lvl ++ dumpsInd lvl v ++
      (match rest with
       | [] => []
       | _ :: _ => [0x2C, 0x0A] ++ dumpsIndArr lvl rest)

end

/-- A raised Python exception, modelled by its `str(e)` message. -/
abbrev PyErr : Type := PyStr

/-- The credential pair `AUTH = ("instabids", "secure123password")` (`relay.py` lines 27 and 46). -/
def AUTH : PyStr × PyStr := (strLit "instabids", strLit "secure123password")

/-- Message of the `UnicodeDecodeError` raised by `body_bytes.decode('utf-8')`
(`relay.py` line 57) on a non-UTF-8 body; CPython's message also names the
offending byte and position, which no claim depends on. -/
def decodeErrMsg : PyStr := strLit "invalid utf-8 in request body"

/-- The Python type name of a value, as it appears in exception messages. -/
def pyTypeName : PyJson → PyStr
  | PyJson.obj _ => strLit "dict"
  | PyJson.arr _ => strLit "list"
  | PyJson.str _ => strLit "str"
  | PyJson.int _ => strLit "int"
  | PyJson.float _ => strLit "float"
  | PyJson.bool _ => strLit "bool"
  | PyJson.null => strLit "NoneType"

/-- Message of the `TypeError` raised by `x in v` for a non-container `v`. -/
def notIterableMsg (v : PyJson) : PyStr :=
  strLit "argument of type '" ++ pyTypeName v ++ strLit "' is not iterable"

/-- Message of the `AttributeError` raised by `v.get(...)` for a non-dict `v`. -/
def noGetMsg (v : PyJson) : PyStr :=
  strLit "'" ++ pyTypeName v ++ strLit "' object has no attribute 'get'"

/-- Python `str.__eq__` between a parsed JSON value and a `str`: only equal
strings compare equal (ints, floats, bools, dicts, lists and `None` are never
`==` to a `str`). -/
def pyEqStr : PyJson → PyStr → Bool
  | PyJson.str t, s => decide (t = s)
  | _, _ => false

/-- Substring test, as in Python's `needle in haystack` on strings. -/
def isSubstring (needle hay : PyStr) : Bool :=
  hay.tails.any fun t => needle.isPrefixOf t

/-- Evaluation of the Python expression `"function_call" in body_json` (line 69):
key containment for a dict, `==`-membership for a list, substring test for a
str, and a raised `TypeError` for any other value. -/
def pyContains (container : PyJson) (key : PyStr) : Except PyErr Bool :=
  match container with
  | PyJson.obj kvs => Except.ok (dictGet kvs key).isSome
  | PyJson.arr xs => Except.ok (xs.any fun x => pyEqStr x key)
  | PyJson.str s => Except.ok (isSubstring key s)
  | v => Except.error (notIterableMsg v)

/-- Evaluation of the Python expression `body_json["function_call"]` (line 70):
dict lookup (raising `KeyError` when absent), `TypeError` for a list or str
subscripted with a str, `TypeError` for anything not subscriptable. -/
def pySubscriptStr (container : PyJson) (key : PyStr) : Except PyErr PyJson :=
  match container with
  | PyJson.obj kvs =>
    match dictGet kvs key with
    | some v => Except.ok v
    | none => Except.error (strLit "'" ++ key ++ strLit "'")
  | PyJson.arr _ => Except.error (strLit "list indices must be integers or slices, not str")
  | PyJson.str _ => Except.error (strLit "string indices must be integers, not 'str'")
  | v => Except.error (strLit "'" ++ pyTypeName v ++ strLit "' object is not subscriptable")

set_option linter.unusedVariables false in
/-- Lines 63–88 of `relay.py`: compute `forward_body` from the decoded request
body.  `Except.error m` models an exception raised inside the `try` (caught at
line 112) with message `m`; `Except.ok fb` is the computed `forward_body`.
(`endpoint` is bound for fidelity to the handler's signature; lines 75–76 use
it only for a printed warning, so it does not influence the result.) -/
def computeForwardBody (endpoint body_str : PyStr) : Except PyErr PyStr :=
  match json_loads body_str with
  | none => Except.ok body_str                                 -- lines 85–88: forward as-is
  | some body_json =>
    match pyContains body_json (strLit "function_call") with   -- line 69
    | Except.error e => Except.error e
    | Except.ok false => Except.ok body_str                    -- lines 81–84: forward as-is
    | Except.ok true =>
      match pySubscriptStr body_json (strLit "function_call") with  -- line 70
      | Except.error e => Except.error e
      | Except.ok function_call =>
        match function_call with
        | PyJson.obj d =>
          let _function_name := dictGet d (strLit "name")      -- line 71
          let parameters := (dictGet d (strLit "parameters")).getD (PyJson.obj [])  -- line 72
          -- lines 75–76 only print a warning on a name/endpoint mismatch;
          -- the warning has no effect on the result
          Except.ok (json_dumps parameters)                    -- line 79
        | v => Except.error (noGetMsg v)  -- line 71: `.get` on a non-dict raises AttributeError

/-- The outbound `httpx` request issued at `relay.py` lines 92–98. -/
structure OutboundRequest where
  method : PyStr
  url : PyStr
  content : PyStr
  contentType : PyStr
  auth : PyStr × PyStr
  timeout : Nat

/-- The upstream's reply to a completed (non-raising) outbound call. -/
structure UpstreamResp where
  status : Int
  text : PyStr

/-- Construction of the outbound call at lines 92–98: POST to
`f"{UPSTREAM}/{endpoint}"`, body `forward_body`, header
`Content-Type: application/json`, `auth=AUTH`, `timeout=30`. -/
def mkOutboundRequest (ubase endpoint forward_body : PyStr) : OutboundRequest :=
  { method := strLit "POST"
    url := ubase ++ strLit "/" ++ endpoint
    content := forward_body
    contentType := strLit "application/json"
    auth := AUTH
    timeout := 30 }

/-- The `{"error": msg, "status": 500}` value returned at line 115. -/
def errorShape (msg : PyStr) : PyJson :=
  PyJson.obj [(strLit "error", PyJson.str msg), (strLit "status", PyJson.int 500)]

/-- The `proxy` handler (`relay.py` lines 48–115).  `ubase` is the `UPSTREAM`
configuration value and `upstream` is the network: it maps the outbound
request to the upstream's response, or to `Except.error m` when the call
raises (timeout, connection failure, ...).  Returns the Python value the
handler returns to the caller, paired with the outbound request that was
issued (`none` when an exception prevented the outbound call). -/
def proxy (ubase endpoint : PyStr) (body_bytes : List Nat)
    (upstream : OutboundRequest → Except PyErr UpstreamResp) :
    PyJson × Option OutboundRequest :=
  match utf8Decode body_bytes with                       -- line 57
  | none => (errorShape decodeErrMsg, none)              -- caught at line 112
  | some body_str =>
    match computeForwardBody endpoint body_str with      -- lines 63–88
    | Except.error e => (errorShape e, none)             -- caught at line 112
    | Except.ok forward_body =>
      let req := mkOutboundRequest ubase endpoint forward_body
      match upstream req with                            -- lines 91–98
      | Except.error e => (errorShape e, some req)       -- caught at line 112
      | Except.ok resp =>
        match json_loads resp.text with                  -- line 103: response.json()
        | some response_json => (response_json, some req)  -- line 111
        | none =>
          (PyJson.obj [(strLit "response", PyJson.str resp.text),
                       (strLit "status", PyJson.int resp.status),
                       (strLit "error", PyJson.null)], some req)  -- line 108

/-- The exception raised during body handling or the outbound call, if any:
the condition under which the `except` at line 112 fires. -/
def runRaises (ubase endpoint : PyStr) (body_bytes : List Nat)
    (upstream : OutboundRequest → Except PyErr UpstreamResp) : Option PyErr :=
  match utf8Decode body_bytes with
  | none => some decodeErrMsg
  | some body_str =>
    match computeForwardBody endpoint body_str with
    | Except.error e => some e
    | Except.ok forward_body =>
      match upstream (mkOutboundRequest ubase endpoint forward_body) with
      | Except.error e => some e
      | Except.ok _ => none

/-- A response produced for `GET /openapi.json`: either a `JSONResponse`
carrying the schema (status 200) or a plain-text response. -/
inductive SchemaResponse where
  | jsonResponse : PyJson → SchemaResponse
  | plainText : PyStr → SchemaResponse

/-- Message of the `TypeError` that `relay.py` line 194 would raise if it ever
ran: Starlette's `JSONResponse.__init__` has parameters `(content,
status_code, headers, media_type, background)` — there is no `gzip`
parameter, so the call `JSONResponse(content=schema, headers=..., gzip=True)`
raises `TypeError`. -/
def gzipKwargMsg : PyStr :=
  strLit "__init__() got an unexpected keyword argument 'gzip'"

/-- The user handler declared at `relay.py` lines 184–194.  `schema` is the
framework-generated `app.openapi()` value.  In the running app this function
is never invoked: FastAPI's built-in `/openapi.json` route shadows it (see
`openapiRouteTable`).  Were it invoked, an `Accept` containing `text/` would
get the schema as indented plain text (line 192), and any other `Accept`
would reach line 194, whose `JSONResponse(..., gzip=True)` call raises a
`TypeError` (modelled as `Except.error`). -/
def get_openapi_schema (schema : PyJson) (accept : PyStr) : Except PyErr SchemaResponse :=
  if isSubstring (strLit "text/") accept then
    Except.ok (SchemaResponse.plainText (dumpsInd 0 schema))
  else
    Except.error gzipKwargMsg

/-- FastAPI's built-in openapi endpoint (registered by `FastAPI.setup()` when
`FastAPI(...)` runs at `relay.py` line 30, with the default
`openapi_url="/openapi.json"`): it returns `JSONResponse(self.openapi())` —
the schema as JSON, status 200 — for every request, regardless of `Accept`. -/
def builtin_openapi_handler (schema : PyJson) : PyStr → Except PyErr SchemaResponse :=
  fun _accept => Except.ok (SchemaResponse.jsonResponse schema)

/-- The app's routes matching path `/openapi.json`, in registration order:
`FastAPI.__init__` at line 30 registers the built-in openapi route before the
`@app.get("/openapi.json")` decorator at line 184 appends the user route. -/
def openapiRouteTable (schema : PyJson) :
    List (PyStr × (PyStr → Except PyErr SchemaResponse)) :=
  [(strLit "/openapi.json", builtin_openapi_handler schema),
   (strLit "/openapi.json", fun accept => get_openapi_schema schema accept)]

/-- Starlette's request dispatch: the first route whose path fully matches
handles the request. -/
def dispatch (routes : List (PyStr × (PyStr → Except PyErr SchemaResponse)))
    (path accept : PyStr) : Except PyErr SchemaResponse :=
  match routes with
  | [] => Except.error (strLit "404 Not Found")
  | (p, h) :: rest => if p = path then h accept else dispatch rest path accept

/-- What the service actually does for `GET /openapi.json`: dispatch over the
registered routes.  The built-in route is first and matches, so the user
handler `get_openapi_schema` is unreachable dead code. -/
def openapi_json_endpoint (schema : PyJson) (accept : PyStr) : Except PyErr SchemaResponse :=
  dispatch (openapiRouteTable schema) (strLit "/openapi.json") accept

example : utf8Decode [0xFF] = none := by decide
example : utf8Decode [0x68, 0x69] = some (strLit "hi") := by decide
example : utf8Encode (strLit "hi") = [0x68, 0x69] := by decide
example : utf8Decode [0xC3, 0xA9] = some [0xE9] := by decide
example : utf8Encode [0xE9] = [0xC3, 0xA9] := by decide
example : utf8Decode [0xC0, 0x80] = none := by decide
example : utf8Decode [0xED, 0xA0, 0x80] = none := by decide
example : utf8Decode [0xF0, 0x9F, 0x98, 0x80] = some [0x1F600] := by decide

theorem utf8Encode_cons (c : Nat) (s : PyStr) :
    utf8Encode (c :: s) = utf8EncodeChar c ++ utf8Encode s := rfl

theorem encodeChar_one (b : Nat) (h : b ≤ 0x7F) : utf8EncodeChar b = [b] := by
  unfold utf8EncodeChar
  rw [if_pos (by omega)]

theorem encodeChar_two (b c1 : Nat) (hb1 : 0xC2 ≤ b) (hb2 : b ≤ 0xDF)
    (hc1 : 0x80 ≤ c1) (hc2 : c1 ≤ 0xBF) :
    utf8EncodeChar ((b - 0xC0) * 64 + (c1 - 0x80)) = [b, c1] := by
  unfold utf8EncodeChar
  rw [if_neg (by omega), if_pos (by omega)]
  simp only [List.cons.injEq, and_true]
  constructor <;> omega

theorem encodeChar_three (b c1 c2 : Nat) (hb1 : 0xE0 ≤ b) (hb2 : b ≤ 0xEF)
    (hc1lo : (if b = 0xE0 then 0xA0 else 0x80) ≤ c1)
    (hc1hi : c1 ≤ (if b = 0xED then 0x9F else 0xBF))
    (hc2 : 0x80 ≤ c2) (hc2b : c2 ≤ 0xBF) :
    utf8EncodeChar ((b - 0xE0) * 4096 + (c1 - 0x80) * 64 + (c2 - 0x80)) = [b, c1, c2] := by
  unfold utf8EncodeChar
  split_ifs at hc1lo hc1hi <;>
    · rw [if_neg (by omega), if_neg (by omega), if_pos (by omega)]
      simp only [List.cons.injEq, and_true]
      refine ⟨by omega, by omega, by omega⟩

theorem encodeChar_four (b c1 c2 c3 : Nat) (hb1 : 0xF0 ≤ b) (hb2 : b ≤ 0xF4)
    (hc1lo : (if b = 0xF0 then 0x90 else 0x80) ≤ c1)
    (hc1hi : c1 ≤ (if b = 0xF4 then 0x8F else 0xBF))
    (hc2 : 0x80 ≤ c2) (hc2b : c2 ≤ 0xBF) (hc3 : 0x80 ≤ c3) (hc3b : c3 ≤ 0xBF) :
    utf8EncodeChar ((b - 0xF0) * 262144 + (c1 - 0x80) * 4096 + (c2 - 0x80) * 64 + (c3 - 0x80)) =
      [b, c1, c2, c3] := by
  unfold utf8EncodeChar
  split_ifs at hc1lo hc1hi <;>
    · rw [if_neg (by omega), if_neg (by omega), if_neg (by omega)]
      simp only [List.cons.injEq, and_true]
      refine ⟨by omega, by omega, by omega, by omega⟩

theorem utf8DecodeAux_encode :
    ∀ (f : Nat) (bs : List Nat) (s : PyStr), utf8DecodeAux f bs = some s → utf8Encode s = bs := by
  intro f
  induction f with
  | zero =>
    intro bs s hs
    cases bs with
    | nil =>
      simp only [utf8DecodeAux, Option.some.injEq] at hs
      subst hs
      rfl
    | cons b rest => exact Option.noConfusion hs
  | succ f ih =>
    intro bs s hs
    cases bs with
    | nil =>
      simp only [utf8DecodeAux, Option.some.injEq] at hs
      subst hs
      rfl
    | cons b rest =>
      by_cases h1 : b ≤ 0x7F
      · simp only [utf8DecodeAux] at hs
        rw [if_pos h1] at hs
        obtain ⟨s0, h0, rfl⟩ := Option.map_eq_some'.mp hs
        rw [utf8Encode_cons, encodeChar_one b h1, ih rest s0 h0]
        rfl
      · by_cases h2 : b < 0xC2
        · simp only [utf8DecodeAux] at hs
          rw [if_neg h1, if_pos h2] at hs
          exact Option.noConfusion hs
        · by_cases h3 : b ≤ 0xDF
          · cases rest with
            | nil =>
              simp only [utf8DecodeAux] at hs
              rw [if_neg h1, if_neg h2, if_pos h3] at hs
              exact Option.noConfusion hs
            | cons c1 rest1 =>
              simp only [utf8DecodeAux] at hs
              rw [if_neg h1, if_neg h2, if_pos h3] at hs
              by_cases hc : isCont c1 = true
              · rw [if_pos hc] at hs
                obtain ⟨s0, h0, rfl⟩ := Option.map_eq_some'.mp hs
                simp only [isCont, decide_eq_true_eq] at hc
                rw [utf8Encode_cons, encodeChar_two b c1 (by omega) h3 hc.1 hc.2, ih rest1 s0 h0]
                rfl
              · rw [if_neg hc] at hs
                exact Option.noConfusion hs
          · by_cases h4 : b ≤ 0xEF
            · match rest with
              | [] =>
                simp only [utf8DecodeAux] at hs
                rw [if_neg h1, if_neg h2, if_neg h3, if_pos h4] at hs
                exact Option.noConfusion hs
              | [c1] =>
                simp only [utf8DecodeAux] at hs
                rw [if_neg h1, if_neg h2, if_neg h3, if_pos h4] at hs
                exact Option.noConfusion hs
              | c1 :: c2 :: rest2 =>
                simp only [utf8DecodeAux] at hs
                rw [if_neg h1, if_neg h2, if_neg h3, if_pos h4] at hs
                by_cases hc : (if b = 0xE0 then 0xA0 else 0x80) ≤ c1 ∧
                    c1 ≤ (if b = 0xED then 0x9F else 0xBF) ∧ isCont c2 = true
                · rw [if_pos hc] at hs
                  obtain ⟨s0, h0, rfl⟩ := Option.map_eq_some'.mp hs
                  obtain ⟨ha, hb, hcc⟩ := hc
                  simp only [isCont, decide_eq_true_eq] at hcc
                  rw [utf8Encode_cons, encodeChar_three b c1 c2 (by omega) h4 ha hb hcc.1 hcc.2,
                    ih rest2 s0 h0]
                  rfl
                · rw [if_neg hc] at hs
                  exact Option.noConfusion hs
            · by_cases h5 : b ≤ 0xF4
              · match rest with
                | [] =>
                  simp only [utf8DecodeAux] at hs
                  rw [if_neg h1, if_neg h2, if_neg h3, if_neg h4, if_pos h5] at hs
                  exact Option.noConfusion hs
                | [c1] =>
                  simp only [utf8DecodeAux] at hs
                  rw [if_neg h1, if_neg h2, if_neg h3, if_neg h4, if_pos h5] at hs
                  exact Option.noConfusion hs
                | [c1, c2] =>
                  simp only [utf8DecodeAux] at hs
                  rw [if_neg h1, if_neg h2, if_neg h3, if_neg h4, if_pos h5] at hs
                  exact Option.noConfusion hs
                | c1 :: c2 :: c3 :: rest3 =>
                  simp only [utf8DecodeAux] at hs
                  rw [if_neg h1, if_neg h2, if_neg h3, if_neg h4, if_pos h5] at hs
                  by_cases hc : (if b = 0xF0 then 0x90 else 0x80) ≤ c1 ∧
                      c1 ≤ (if b = 0xF4 then 0x8F else 0xBF) ∧ isCont c2 = true ∧ isCont c3 = true
                  · rw [if_pos hc] at hs
                    obtain ⟨s0, h0, rfl⟩ := Option.map_eq_some'.mp hs
                    obtain ⟨ha, hb, hcc, hdd⟩ := hc
                    simp only [isCont, decide_eq_true_eq] at hcc hdd
                    rw [utf8Encode_cons,
                      encodeChar_four b c1 c2 c3 (by omega) h5 ha hb hcc.1 hcc.2 hdd.1 hdd.2,
                      ih rest3 s0 h0]
                    rfl
                  · rw [if_neg hc] at hs
                    exact Option.noConfusion hs
              · simp only [utf8DecodeAux] at hs
                rw [if_neg h1, if_neg h2, if_neg h3, if_neg h4, if_neg h5] at hs
                exact Option.noConfusion hs

theorem utf8Decode_encode (bs : List Nat) (s : PyStr) (h : utf8Decode bs = some s) :
    utf8Encode s = bs :=
  utf8DecodeAux_encode bs.length bs s h

/-! Stage lemmas about the forward-body computation and the proxy. -/

theorem computeForwardBody_envelope (endpoint body_str : PyStr)
    (kvs fcd : List (PyStr × PyJson))
    (hparse : json_loads body_str = some (PyJson.obj kvs))
    (hfc : dictGet kvs (strLit "function_call") = some (PyJson.obj fcd)) :
    computeForwardBody endpoint body_str =
      Except.ok (json_dumps ((dictGet fcd (strLit "parameters")).getD (PyJson.obj []))) := by
  simp only [computeForwardBody, hparse, pyContains, hfc, Option.isSome_some, pySubscriptStr]

theorem computeForwardBody_nonjson (endpoint body_str : PyStr)
    (hjson : json_loads body_str = none) :
    computeForwardBody endpoint body_str = Except.ok body_str := by
  simp only [computeForwardBody, hjson]

theorem computeForwardBody_nokey (endpoint body_str : PyStr)
    (kvs : List (PyStr × PyJson))
    (hparse : json_loads body_str = some (PyJson.obj kvs))
    (hnokey : dictGet kvs (strLit "function_call") = none) :
    computeForwardBody endpoint body_str = Except.ok body_str := by
  simp only [computeForwardBody, hparse, pyContains, hnokey, Option.isSome_none]

theorem proxy_snd_of_ok (ubase endpoint : PyStr) (body_bytes : List Nat)
    (upstream : OutboundRequest → Except PyErr UpstreamResp) (body_str fb : PyStr)
    (hdec : utf8Decode body_bytes = some body_str)
    (hfb : computeForwardBody endpoint body_str = Except.ok fb) :
    (proxy ubase endpoint body_bytes upstream).2 =
      some (mkOutboundRequest ubase endpoint fb) := by
  simp only [proxy, hdec, hfb]
  cases hup : upstream (mkOutboundRequest ubase endpoint fb) with
  | error e => simp
  | ok resp =>
    cases hjs : json_loads resp.text with
    | none => simp [hjs]
    | some j => simp [hjs]

theorem proxy_err_transform (ubase endpoint : PyStr) (body_bytes : List Nat)
    (upstream : OutboundRequest → Except PyErr UpstreamResp) (body_str : PyStr) (e : PyErr)
    (hdec : utf8Decode body_bytes = some body_str)
    (hfb : computeForwardBody endpoint body_str = Except.error e) :
    proxy ubase endpoint body_bytes upstream = (errorShape e, none) := by
  simp only [proxy, hdec, hfb]

theorem proxy_fst_upstream_json (ubase endpoint : PyStr) (body_bytes : List Nat)
    (upstream : OutboundRequest → Except PyErr UpstreamResp) (body_str fb : PyStr)
    (resp : UpstreamResp) (j : PyJson)
    (hdec : utf8Decode body_bytes = some body_str)
    (hfb : computeForwardBody endpoint body_str = Except.ok fb)
    (hup : upstream (mkOutboundRequest ubase endpoint fb) = Except.ok resp)
    (hjson : json_loads resp.text = some j) :
    (proxy ubase endpoint body_bytes upstream).1 = j := by
  simp only [proxy, hdec, hfb, hup, hjson]

theorem proxy_fst_upstream_nonjson (ubase endpoint : PyStr) (body_bytes : List Nat)
    (upstream : OutboundRequest → Except PyErr UpstreamResp) (body_str fb : PyStr)
    (resp : UpstreamResp)
    (hdec : utf8Decode body_bytes = some body_str)
    (hfb : computeForwardBody endpoint body_str = Except.ok fb)
    (hup : upstream (mkOutboundRequest ubase endpoint fb) = Except.ok resp)
    (hjson : json_loads resp.text = none) :
    (proxy ubase endpoint body_bytes upstream).1 =
      PyJson.obj [(strLit "response", PyJson.str resp.text),
                  (strLit "status", PyJson.int resp.status),
                  (strLit "error", PyJson.null)] := by
  simp only [proxy, hdec, hfb, hup, hjson]

/-! Fixtures for concrete witnesses. -/

/-- An upstream oracle replying 200 with JSON body `\x7b"rows": []\x7d`. -/
def upstreamRows : OutboundRequest → Except PyErr UpstreamResp :=
  fun _ => Except.ok { status := 200, text := strLit "\x7b\"rows\": []\x7d" }

/-- An upstream oracle replying 200 with the non-JSON body `not json`. -/
def upstreamNotJson : OutboundRequest → Except PyErr UpstreamResp :=
  fun _ => Except.ok { status := 200, text := strLit "not json" }

/-- An upstream oracle whose call always raises (e.g. a timeout). -/
def upstreamTimeout : OutboundRequest → Except PyErr UpstreamResp :=
  fun _ => Except.error (strLit "timed out")

/-- The example envelope body of the spec. -/
def c1Body : PyStr :=
  strLit "\x7b\"function_call\": \x7b\"name\": \"list_tables\", \"parameters\": \x7b\x7d\x7d\x7d"

/-- An envelope body whose `name` (`other`) mismatches the endpoint (`query`). -/
def c5Body : PyStr :=
  strLit "\x7b\"function_call\": \x7b\"name\": \"other\", \"parameters\": \x7b\"sql\": \"SELECT 1\"\x7d\x7d\x7d"

/-- A body whose `function_call` value is a string rather than an object. -/
def c10Body : PyStr := strLit "\x7b\"function_call\": \"x\"\x7d"

/-! The claims. -/

/-- C1: for every inbound request whose body parses as a JSON object whose
`function_call` value is an envelope object, the outbound call's payload is
the JSON-serialization of the envelope's `parameters` value (defaulting to the
empty mapping when `parameters` is absent) — not the serialization of the
whole envelope.  (When the `function_call` value is not an object, no call is
made at all; that complementary behaviour is C10.) -/
theorem C1_envelope_forwards_parameters (ubase endpoint : PyStr) (body_bytes : List Nat)
    (upstream : OutboundRequest → Except PyErr UpstreamResp)
    (body_str : PyStr) (kvs fcd : List (PyStr × PyJson))
    (hdec : utf8Decode body_bytes = some body_str)
    (hparse : json_loads body_str = some (PyJson.obj kvs))
    (hfc : dictGet kvs (strLit "function_call") = some (PyJson.obj fcd)) :
    (proxy ubase endpoint body_bytes upstream).2 =
      some (mkOutboundRequest ubase endpoint
        (json_dumps ((dictGet fcd (strLit "parameters")).getD (PyJson.obj [])))) :=
  proxy_snd_of_ok ubase endpoint body_bytes upstream body_str _ hdec
    (computeForwardBody_envelope endpoint body_str kvs fcd hparse hfc)

/-- C1 witness: the spec's example body on endpoint `list_tables` is forwarded
with payload `\x7b\x7d` (the serialization of the empty `parameters`), not the
serialization of the whole envelope. -/
theorem C1_witness :
    (proxy (strLit "http://localhost:8000/mcp") (strLit "list_tables")
        (utf8Encode c1Body) upstreamRows).2 =
      some (mkOutboundRequest (strLit "http://localhost:8000/mcp") (strLit "list_tables")
        (strLit "\x7b\x7d")) := by
  have h := C1_envelope_forwards_parameters (strLit "http://localhost:8000/mcp")
    (strLit "list_tables") (utf8Encode c1Body) upstreamRows c1Body
    [(strLit "function_call", PyJson.obj
      [(strLit "name", PyJson.str (strLit "list_tables")),
       (strLit "parameters", PyJson.obj [])])]
    [(strLit "name", PyJson.str (strLit "list_tables")),
     (strLit "parameters", PyJson.obj [])]
    (by rfl) (by rfl) (by rfl)
  exact h.trans (by rfl)

/-- C2 counterexample: the single byte `0xFF` is an inbound body that is not
valid JSON (it is not even UTF-8), yet it is not forwarded verbatim: the
`decode('utf-8')` call at line 57 raises, no outbound call is made, and the
error shape is returned instead. -/
theorem C2_counterexample :
    utf8Decode [0xFF] = none ∧
    proxy (strLit "http://localhost:8000/mcp") (strLit "query") [0xFF] upstreamRows =
      (errorShape decodeErrMsg, none) :=
  ⟨rfl, rfl⟩

/-- C2 (amended): for every inbound body that decodes as UTF-8 but is not
valid JSON, the request is still forwarded, the outbound content is the
decoded body unchanged, and its UTF-8 encoding is the inbound body
byte-for-byte. -/
theorem C2_utf8_nonjson_passthrough (ubase endpoint : PyStr) (body_bytes : List Nat)
    (upstream : OutboundRequest → Except PyErr UpstreamResp) (body_str : PyStr)
    (hdec : utf8Decode body_bytes = some body_str)
    (hjson : json_loads body_str = none) :
    (proxy ubase endpoint body_bytes upstream).2 =
        some (mkOutboundRequest ubase endpoint body_str) ∧
      utf8Encode body_str = body_bytes :=
  ⟨proxy_snd_of_ok ubase endpoint body_bytes upstream body_str body_str hdec
      (computeForwardBody_nonjson endpoint body_str hjson),
   utf8Decode_encode body_bytes body_str hdec⟩

/-- C2 witness: the non-JSON body `not json` is forwarded unchanged. -/
theorem C2_witness :
    (proxy (strLit "u") (strLit "query") (utf8Encode (strLit "not json")) upstreamRows).2 =
        some (mkOutboundRequest (strLit "u") (strLit "query") (strLit "not json")) ∧
      utf8Encode (strLit "not json") = utf8Encode (strLit "not json") :=
  C2_utf8_nonjson_passthrough (strLit "u") (strLit "query")
    (utf8Encode (strLit "not json")) upstreamRows (strLit "not json") (by rfl) (by rfl)

/-- C3 counterexample: the body `5` parses as valid JSON and contains no
`function_call` key, yet it is not passed through: `"function_call" in 5`
raises `TypeError`, no outbound call is made, and the error shape is
returned. -/
theorem C3_counterexample :
    json_loads (strLit "5") = some (PyJson.int 5) ∧
    proxy (strLit "u") (strLit "list_tables") (utf8Encode (strLit "5")) upstreamRows =
      (errorShape (notIterableMsg (PyJson.int 5)), none) :=
  ⟨rfl, rfl⟩

/-- C3 (amended): for every inbound body that parses as a JSON *object*
without a `function_call` key, the body is forwarded unchanged (the decoded
string itself, no re-serialization), never an error. -/
theorem C3_object_without_key_passthrough (ubase endpoint : PyStr) (body_bytes : List Nat)
    (upstream : OutboundRequest → Except PyErr UpstreamResp) (body_str : PyStr)
    (kvs : List (PyStr × PyJson))
    (hdec : utf8Decode body_bytes = some body_str)
    (hparse : json_loads body_str = some (PyJson.obj kvs))
    (hnokey : dictGet kvs (strLit "function_call") = none) :
    (proxy ubase endpoint body_bytes upstream).2 =
        some (mkOutboundRequest ubase endpoint body_str) ∧
      utf8Encode body_str = body_bytes :=
  ⟨proxy_snd_of_ok ubase endpoint body_bytes upstream body_str body_str hdec
      (computeForwardBody_nokey endpoint body_str kvs hparse hnokey),
   utf8Decode_encode body_bytes body_str hdec⟩

/-- C3 witness: the JSON object `\x7b"a": 1\x7d` (no `function_call` key) is
forwarded unchanged. -/
theorem C3_witness :
    (proxy (strLit "u") (strLit "query") (utf8Encode (strLit "\x7b\"a\": 1\x7d")) upstreamRows).2 =
        some (mkOutboundRequest (strLit "u") (strLit "query") (strLit "\x7b\"a\": 1\x7d")) ∧
      utf8Encode (strLit "\x7b\"a\": 1\x7d") = utf8Encode (strLit "\x7b\"a\": 1\x7d") :=
  C3_object_without_key_passthrough (strLit "u") (strLit "query")
    (utf8Encode (strLit "\x7b\"a\": 1\x7d")) upstreamRows (strLit "\x7b\"a\": 1\x7d")
    [(strLit "a", PyJson.int 1)] (by rfl) (by rfl) (by rfl)

/-- C4: whenever any exception occurs during body handling or the outbound
call (non-UTF-8 body, `TypeError`/`AttributeError` during transformation,
timeout or connection failure), the handler returns exactly
`\x7b"error": message, "status": 500\x7d`, with status the constant 500
regardless of the failure kind; the `except` at line 112 converts every such
fault into this returned value, so none escapes to the caller. -/
theorem C4_exception_collapses_to_error_500 (ubase endpoint : PyStr) (body_bytes : List Nat)
    (upstream : OutboundRequest → Except PyErr UpstreamResp) (e : PyErr)
    (h : runRaises ubase endpoint body_bytes upstream = some e) :
    (proxy ubase endpoint body_bytes upstream).1 = errorShape e := by
  rcases hdec : utf8Decode body_bytes with _ | body_str
  · simp only [runRaises, hdec, Option.some.injEq] at h
    subst h
    simp only [proxy, hdec]
  · simp only [runRaises, hdec] at h
    rcases hfb : computeForwardBody endpoint body_str with e2 | fb
    · simp only [hfb, Option.some.injEq] at h
      subst h
      simp only [proxy, hdec, hfb]
    · simp only [hfb] at h
      rcases hup : upstream (mkOutboundRequest ubase endpoint fb) with e3 | resp
      · simp only [hup, Option.some.injEq] at h
        subst h
        simp only [proxy, hdec, hfb, hup]
      · simp only [hup] at h
        exact Option.noConfusion h

/-- C4 witness: an upstream timeout on a passthrough body yields exactly the
error shape with the exception's message and status 500. -/
theorem C4_witness :
    runRaises (strLit "u") (strLit "query") (utf8Encode (strLit "\x7b\x7d")) upstreamTimeout =
        some (strLit "timed out") ∧
      (proxy (strLit "u") (strLit "query") (utf8Encode (strLit "\x7b\x7d")) upstreamTimeout).1 =
        errorShape (strLit "timed out") :=
  ⟨rfl, C4_exception_collapses_to_error_500 (strLit "u") (strLit "query")
    (utf8Encode (strLit "\x7b\x7d")) upstreamTimeout (strLit "timed out") rfl⟩

set_option linter.unusedVariables false in
/-- C5: an envelope whose `name` is present but differs from the endpoint is
processed exactly like the matching case: the forward body is the
serialization of `parameters` — an expression in which `name` does not occur —
and the outbound call is made, never aborted or turned into an error (lines
75–76 only print a warning). -/
theorem C5_name_mismatch_is_nonfatal (ubase endpoint : PyStr) (body_bytes : List Nat)
    (upstream : OutboundRequest → Except PyErr UpstreamResp)
    (body_str : PyStr) (kvs fcd : List (PyStr × PyJson)) (n : PyStr)
    (hdec : utf8Decode body_bytes = some body_str)
    (hparse : json_loads body_str = some (PyJson.obj kvs))
    (hfc : dictGet kvs (strLit "function_call") = some (PyJson.obj fcd))
    (hname : dictGet fcd (strLit "name") = some (PyJson.str n))
    (hmismatch : n ≠ endpoint) :
    computeForwardBody endpoint body_str =
        Except.ok (json_dumps ((dictGet fcd (strLit "parameters")).getD (PyJson.obj []))) ∧
      (proxy ubase endpoint body_bytes upstream).2 =
        some (mkOutboundRequest ubase endpoint
          (json_dumps ((dictGet fcd (strLit "parameters")).getD (PyJson.obj [])))) :=
  ⟨computeForwardBody_envelope endpoint body_str kvs fcd hparse hfc,
   proxy_snd_of_ok ubase endpoint body_bytes upstream body_str _ hdec
     (computeForwardBody_envelope endpoint body_str kvs fcd hparse hfc)⟩

/-- C5 witness: the envelope with `name` `other` on endpoint `query` still
forwards the serialization of its `parameters`. -/
theorem C5_witness :
    computeForwardBody (strLit "query") c5Body =
        Except.ok (strLit "\x7b\"sql\": \"SELECT 1\"\x7d") ∧
      (proxy (strLit "u") (strLit "query") (utf8Encode c5Body) upstreamRows).2 =
        some (mkOutboundRequest (strLit "u") (strLit "query")
          (strLit "\x7b\"sql\": \"SELECT 1\"\x7d")) := by
  have h := C5_name_mismatch_is_nonfatal (strLit "u") (strLit "query") (utf8Encode c5Body)
    upstreamRows c5Body
    [(strLit "function_call", PyJson.obj
      [(strLit "name", PyJson.str (strLit "other")),
       (strLit "parameters", PyJson.obj [(strLit "sql", PyJson.str (strLit "SELECT 1"))])])]
    [(strLit "name", PyJson.str (strLit "other")),
     (strLit "parameters", PyJson.obj [(strLit "sql", PyJson.str (strLit "SELECT 1"))])]
    (strLit "other")
    (by rfl) (by rfl) (by rfl) (by rfl) (by decide)
  exact ⟨h.1.trans (by rfl), h.2.trans (by rfl)⟩

/-- C6: when the outbound call completes and the upstream body parses as JSON,
the handler returns that parsed value itself, unmodified (the upstream status
code is not added to the returned body). -/
theorem C6_upstream_json_returned_unmodified (ubase endpoint : PyStr) (body_bytes : List Nat)
    (upstream : OutboundRequest → Except PyErr UpstreamResp) (body_str fb : PyStr)
    (resp : UpstreamResp) (j : PyJson)
    (hdec : utf8Decode body_bytes = some body_str)
    (hfb : computeForwardBody endpoint body_str = Except.ok fb)
    (hup : upstream (mkOutboundRequest ubase endpoint fb) = Except.ok resp)
    (hjson : json_loads resp.text = some j) :
    (proxy ubase endpoint body_bytes upstream).1 = j :=
  proxy_fst_upstream_json ubase endpoint body_bytes upstream body_str fb resp j
    hdec hfb hup hjson

/-- C6 witness: an upstream JSON body `\x7b"rows": []\x7d` is returned as the
parsed value `\x7b"rows": []\x7d`, unchanged. -/
theorem C6_witness :
    (proxy (strLit "u") (strLit "query") (utf8Encode (strLit "\x7b\x7d")) upstreamRows).1 =
      PyJson.obj [(strLit "rows", PyJson.arr [])] :=
  C6_upstream_json_returned_unmodified (strLit "u") (strLit "query")
    (utf8Encode (strLit "\x7b\x7d")) upstreamRows (strLit "\x7b\x7d") (strLit "\x7b\x7d")
    { status := 200, text := strLit "\x7b\"rows\": []\x7d" }
    (PyJson.obj [(strLit "rows", PyJson.arr [])])
    (by rfl) (by rfl) (by rfl) (by rfl)

/-- C7: when the outbound call completes but the upstream body does not parse
as JSON, the handler returns exactly `\x7b"response": text, "status": code,
"error": None\x7d`, preserving the real upstream status code. -/
theorem C7_upstream_nonjson_wrapped (ubase endpoint : PyStr) (body_bytes : List Nat)
    (upstream : OutboundRequest → Except PyErr UpstreamResp) (body_str fb : PyStr)
    (resp : UpstreamResp)
    (hdec : utf8Decode body_bytes = some body_str)
    (hfb : computeForwardBody endpoint body_str = Except.ok fb)
    (hup : upstream (mkOutboundRequest ubase endpoint fb) = Except.ok resp)
    (hjson : json_loads resp.text = none) :
    (proxy ubase endpoint body_bytes upstream).1 =
      PyJson.obj [(strLit "response", PyJson.str resp.text),
                  (strLit "status", PyJson.int resp.status),
                  (strLit "error", PyJson.null)] :=
  proxy_fst_upstream_nonjson ubase endpoint body_bytes upstream body_str fb resp
    hdec hfb hup hjson

/-- C7 witness: upstream HTTP 200 with body `not json` yields
`\x7b"response": "not json", "status": 200, "error": None\x7d`. -/
theorem C7_witness :
    (proxy (strLit "u") (strLit "query") (utf8Encode (strLit "\x7b\x7d")) upstreamNotJson).1 =
      PyJson.obj [(strLit "response", PyJson.str (strLit "not json")),
                  (strLit "status", PyJson.int 200),
                  (strLit "error", PyJson.null)] :=
  C7_upstream_nonjson_wrapped (strLit "u") (strLit "query")
    (utf8Encode (strLit "\x7b\x7d")) upstreamNotJson (strLit "\x7b\x7d") (strLit "\x7b\x7d")
    { status := 200, text := strLit "not json" }
    (by rfl) (by rfl) (by rfl) (by rfl)

/-- C8: every outbound call the proxy issues is a POST to the fixed upstream
base joined with the verbatim endpoint path, with `Content-Type:
application/json` always set, the fixed Basic-auth credential pair, and a
timeout of 30. -/
theorem C8_outbound_call_shape (ubase endpoint : PyStr) (body_bytes : List Nat)
    (upstream : OutboundRequest → Except PyErr UpstreamResp) (req : OutboundRequest)
    (h : (proxy ubase endpoint body_bytes upstream).2 = some req) :
    req.method = strLit "POST" ∧ req.url = ubase ++ strLit "/" ++ endpoint ∧
      req.contentType = strLit "application/json" ∧ req.auth = AUTH ∧ req.timeout = 30 := by
  rcases hdec : utf8Decode body_bytes with _ | body_str
  · simp only [proxy, hdec] at h
    exact Option.noConfusion h
  · rcases hfb : computeForwardBody endpoint body_str with e | fb
    · simp only [proxy, hdec, hfb] at h
      exact Option.noConfusion h
    · have hsnd := proxy_snd_of_ok ubase endpoint body_bytes upstream body_str fb hdec hfb
      rw [h] at hsnd
      have hreq : req = mkOutboundRequest ubase endpoint fb := by
        injection hsnd with hsnd
      subst hreq
      exact ⟨rfl, rfl, rfl, rfl, rfl⟩

/-- C8 witness: the call issued for a passthrough body has exactly the POST /
URL / header / auth / timeout shape. -/
theorem C8_witness :
    (mkOutboundRequest (strLit "u") (strLit "query") (strLit "\x7b\x7d")).method = strLit "POST" ∧
      (mkOutboundRequest (strLit "u") (strLit "query") (strLit "\x7b\x7d")).url =
        strLit "u" ++ strLit "/" ++ strLit "query" ∧
      (mkOutboundRequest (strLit "u") (strLit "query") (strLit "\x7b\x7d")).contentType =
        strLit "application/json" ∧
      (mkOutboundRequest (strLit "u") (strLit "query") (strLit "\x7b\x7d")).auth = AUTH ∧
      (mkOutboundRequest (strLit "u") (strLit "query") (strLit "\x7b\x7d")).timeout = 30 :=
  C8_outbound_call_shape (strLit "u") (strLit "query") (utf8Encode (strLit "\x7b\x7d"))
    upstreamRows (mkOutboundRequest (strLit "u") (strLit "query") (strLit "\x7b\x7d")) (by rfl)

/-- C9 counterexample: for a `GET /openapi.json` request whose `Accept`
contains `text/` (here `text/plain`), the service does not return the schema
as indented plain text: FastAPI's built-in route answers first and returns
the schema as a JSON response, so the user handler's text branch never runs. -/
theorem C9_counterexample :
    isSubstring (strLit "text/") (strLit "text/plain") = true ∧
    openapi_json_endpoint (PyJson.obj []) (strLit "text/plain") =
      Except.ok (SchemaResponse.jsonResponse (PyJson.obj [])) ∧
    openapi_json_endpoint (PyJson.obj []) (strLit "text/plain") ≠
      Except.ok (SchemaResponse.plainText (dumpsInd 0 (PyJson.obj []))) :=
  ⟨rfl, rfl, by
    intro h
    rw [show openapi_json_endpoint (PyJson.obj []) (strLit "text/plain") =
        Except.ok (SchemaResponse.jsonResponse (PyJson.obj [])) from rfl] at h
    injection h with h2
    exact SchemaResponse.noConfusion h2⟩

/-- C9 (amended): every `GET /openapi.json` request — whatever its `Accept`
header — successfully returns the service's API schema as a JSON response and
never fails: the framework's built-in openapi route, registered before the
user route, takes every request, leaving the user handler (its `text/` branch
and its raising `gzip=True` JSON branch alike) unreachable. -/
theorem C9_openapi_always_json (schema : PyJson) (accept : PyStr) :
    openapi_json_endpoint schema accept =
      Except.ok (SchemaResponse.jsonResponse schema) := rfl

/-- C10: when the body parses as a JSON object whose `function_call` value is
not itself an object, no outbound call is made at all and the handler returns
the error shape: `function_call.get("name")` at line 71 raises
`AttributeError`, caught at line 112. -/
theorem C10_nonobject_function_call_errors (ubase endpoint : PyStr) (body_bytes : List Nat)
    (upstream : OutboundRequest → Except PyErr UpstreamResp) (body_str : PyStr)
    (kvs : List (PyStr × PyJson)) (v : PyJson)
    (hdec : utf8Decode body_bytes = some body_str)
    (hparse : json_loads body_str = some (PyJson.obj kvs))
    (hfc : dictGet kvs (strLit "function_call") = some v)
    (hnotobj : ∀ d, v ≠ PyJson.obj d) :
    proxy ubase endpoint body_bytes upstream = (errorShape (noGetMsg v), none) := by
  have hfbe : computeForwardBody endpoint body_str = Except.error (noGetMsg v) := by
    cases v <;> first
      | exact absurd rfl (hnotobj _)
      | simp only [computeForwardBody, hparse, pyContains, hfc, Option.isSome_some,
          pySubscriptStr]
  exact proxy_err_transform ubase endpoint body_bytes upstream body_str (noGetMsg v) hdec hfbe

/-- C10 witness: `\x7b"function_call": "x"\x7d` makes no outbound call and
returns the error shape for the `AttributeError` of `'str'.get`. -/
theorem C10_witness :
    proxy (strLit "u") (strLit "query") (utf8Encode c10Body) upstreamRows =
      (errorShape (noGetMsg (PyJson.str (strLit "x"))), none) :=
  C10_nonobject_function_call_errors (strLit "u") (strLit "query") (utf8Encode c10Body)
    upstreamRows c10Body
    [(strLit "function_call", PyJson.str (strLit "x"))] (PyJson.str (strLit "x"))
    (by rfl) (by rfl) (by rfl) (by intro d hd; exact PyJson.noConfusion hd)
